import Mathlib

/-!
# Multi_Saldo: theme toggle and toast initializer (`app/static/js/app.js`)

A shallow embedding of the script's single immediately-invoked function and of
the click handler it registers.  The browser objects the script touches are
modelled as explicit state:

* the attributes of `document.documentElement` (a map from name to value),
* `localStorage` (either unavailable, so that any access throws, or a map
  from key to value together with the browser's rule for accepting a write:
  a refused `setItem` throws while reads keep working, as with a full or
  write-blocked store),
* the elements of the document in document order (identity, id, class list),
* the click listeners registered by the script,
* the `bootstrap.Toast` toolkit (instances constructed and `show()` calls);
  the toolkit is taken as loaded: constructing and showing a toast succeed.

JavaScript strings are represented by Lean strings; `null` by `none`.
-/

namespace MultiSaldo

/-- An element of the document: its node identity, its `id` attribute and its
class list. -/
structure Element where
  node : Nat
  id : Option String
  classes : List String
  deriving DecidableEq, Repr

/-- Attributes of an element: attribute name to value, `none` when absent. -/
abbrev Attrs := String → Option String

/-- Contents of `localStorage`: key to value, `none` when the key is absent. -/
abbrev Items := String → Option String

/-- The browser's rule for `localStorage.setItem`: given the current contents,
the key and the value, whether the write is accepted.  A refused write throws
(`QuotaExceededError` on a full store, or a store the browser keeps
read-only). -/
abbrev WritePolicy := Items → String → String → Bool

/-- The object `localStorage`: either every access throws, or it holds items
and accepts writes according to its policy. -/
inductive Storage where
  | unavailable
  | available (items : Items) (accepts : WritePolicy)

/-- One `bootstrap.Toast` object: the element and the `delay` option it was
constructed with. -/
structure ToastInstance where
  element : Element
  delay : Nat
  deriving DecidableEq, Repr

/-- State of the toast toolkit: the instances in construction order (an
instance is referred to by its position) and the instances on which `show()`
was invoked, in call order. -/
structure Toolkit where
  instances : List ToastInstance
  shows : List Nat
  deriving DecidableEq, Repr

/-- Everything the script reads or writes. -/
structure World where
  rootAttrs : Attrs
  storage : Storage
  elements : List Element
  listeners : List Element
  toolkit : Toolkit

/-- How a piece of JavaScript finished. -/
inductive Completion where
  | normal
  | thrown
  deriving DecidableEq, Repr

/-- `el.getAttribute(name)`. -/
def getAttribute (attrs : Attrs) (name : String) : Option String :=
  attrs name

/-- `el.setAttribute(name, value)`. -/
def setAttribute (attrs : Attrs) (name value : String) : Attrs :=
  fun n => if n = name then some value else attrs n

/-- `localStorage.getItem(key)`: `none` when the access throws, otherwise the
stored string or `null`. -/
def getItem (s : Storage) (key : String) : Option (Option String) :=
  match s with
  | .unavailable => none
  | .available items _ => some (items key)

/-- `localStorage.setItem(key, value)`: `none` when the call throws, because
storage is unavailable or because the write is refused; the contents are then
as before. -/
def setItem (s : Storage) (key value : String) : Option Storage :=
  match s with
  | .unavailable => none
  | .available items accepts =>
    if accepts items key value then
      some (.available (fun k => if k = key then some value else items k) accepts)
    else none

/-- Truthiness of a value that is a string or `null`, as tested by
`if (saved)`: `null` and the empty string are falsy. -/
def truthy (v : Option String) : Bool :=
  match v with
  | none => false
  | some s => s != ""

/-- `document.getElementById(id)`: the first element in document order with
that id, or `null`. -/
def getElementById (els : List Element) (id : String) : Option Element :=
  els.find? (fun e => e.id == some id)

/-- `document.querySelectorAll('.' + cls)`: the elements carrying the class,
in document order. -/
def querySelectorAll (els : List Element) (cls : String) : List Element :=
  els.filter (fun e => cls ∈ e.classes)

/-- The click listener registered on the toggle control (lines 9-13). -/
def clickHandler (w : World) : World × Completion :=
  let cur :=
    if getAttribute w.rootAttrs "data-bs-theme" = some "dark" then "light" else "dark"
  let w1 := { w with rootAttrs := setAttribute w.rootAttrs "data-bs-theme" cur }
  match setItem w1.storage "theme" cur with
  | none => (w1, .thrown)
  | some s => ({ w1 with storage := s }, .normal)

/-- Body of the `forEach` callback (lines 18-19): construct a toast on `t`
with `delay: 4500` and show it. -/
def activateToast (tk : Toolkit) (t : Element) : Toolkit :=
  let toast := tk.instances.length
  { instances := tk.instances ++ [{ element := t, delay := 4500 }],
    shows := tk.shows ++ [toast] }

/-- The immediately-invoked function (lines 2-21). -/
def initializer (w : World) : World × Completion :=
  match getItem w.storage "theme" with
  | none => (w, .thrown)
  | some saved =>
    let w1 :=
      match saved with
      | some s =>
        if truthy (some s) then
          { w with rootAttrs := setAttribute w.rootAttrs "data-bs-theme" s }
        else w
      | none => w
    let w2 :=
      match getElementById w1.elements "themeToggle" with
      | some btn => { w1 with listeners := w1.listeners ++ [btn] }
      | none => w1
    ({ w2 with
        toolkit := (querySelectorAll w2.elements "toast").foldl activateToast w2.toolkit },
      .normal)

/-- The stored theme preference, `none` when absent or when storage cannot be
read. -/
def storedTheme (w : World) : Option String :=
  (getItem w.storage "theme").join

/-- The root's `data-bs-theme` attribute. -/
def rootTheme (w : World) : Option String :=
  getAttribute w.rootAttrs "data-bs-theme"

/-- A write policy that accepts every write. -/
def acceptAll : WritePolicy := fun _ _ _ => true

/-- A write policy that refuses every write: a full or write-blocked store. -/
def refuseAll : WritePolicy := fun _ _ _ => false

/-- A page with an empty document, an attribute-free root, empty storage and
no toast constructed so far. -/
def blankWorld : World :=
  { rootAttrs := fun _ => none,
    storage := .available (fun _ => none) acceptAll,
    elements := [],
    listeners := [],
    toolkit := { instances := [], shows := [] } }

/-- The toggle button of the sample pages. -/
def sampleButton : Element :=
  { node := 1, id := some "themeToggle", classes := ["btn"] }

/-- First toast of the sample pages. -/
def sampleToastA : Element :=
  { node := 2, id := none, classes := ["toast", "fade"] }

/-- Second toast of the sample pages. -/
def sampleToastB : Element :=
  { node := 3, id := some "flash", classes := ["toast"] }

/-- A sample page: a light root, a toggle button, two toasts and a stored
preference of "dark". -/
def samplePage : World :=
  { rootAttrs := fun n => if n = "data-bs-theme" then some "light" else none,
    storage := .available (fun k => if k = "theme" then some "dark" else none) acceptAll,
    elements := [sampleButton, sampleToastA, sampleToastB],
    listeners := [],
    toolkit := { instances := [], shows := [] } }

/-- The sample page without its toggle button. -/
def samplePageNoButton : World :=
  { samplePage with elements := [sampleToastA, sampleToastB] }

/-- The sample page after an earlier toggle to "dark", with a store that has
since become full: root and stored preference are both "dark", reads work and
every write is refused. -/
def fullStorePage : World :=
  { samplePage with
      rootAttrs := fun n => if n = "data-bs-theme" then some "dark" else none,
      storage := .available (fun k => if k = "theme" then some "dark" else none) refuseAll }

/-! ## Auxiliary facts -/

theorem foldl_activateToast_instances (ts : List Element) (tk : Toolkit) :
    (ts.foldl activateToast tk).instances
      = tk.instances ++ ts.map (fun t => { element := t, delay := 4500 }) := by
  induction ts generalizing tk with
  | nil => simp
  | cons t ts ih => simp [List.foldl, ih, activateToast]

theorem foldl_activateToast_shows (ts : List Element) (tk : Toolkit) :
    (ts.foldl activateToast tk).shows
      = tk.shows ++ (List.range ts.length).map (fun i => tk.instances.length + i) := by
  induction ts generalizing tk with
  | nil => simp
  | cons t ts ih =>
    simp only [List.foldl, ih, activateToast, List.length_append, List.length_cons,
      List.length_nil, List.append_assoc, List.range_succ_eq_map, List.map_cons,
      List.map_map, List.singleton_append, Nat.add_zero]
    congr 2
    apply List.map_congr_left
    intro i _
    simp only [Function.comp]
    omega

theorem clickHandler_root (w : World) :
    (clickHandler w).1.rootAttrs
      = setAttribute w.rootAttrs "data-bs-theme"
          (if w.rootAttrs "data-bs-theme" = some "dark" then "light" else "dark") := by
  simp only [clickHandler, getAttribute]
  split <;> rfl

theorem clickHandler_accepted (attrs : Attrs) (items : Items) (accepts : WritePolicy)
    (els ls : List Element) (tk : Toolkit)
    (h : accepts items "theme"
      (if attrs "data-bs-theme" = some "dark" then "light" else "dark") = true) :
    clickHandler
        { rootAttrs := attrs, storage := .available items accepts, elements := els,
          listeners := ls, toolkit := tk }
      = ({ rootAttrs := setAttribute attrs "data-bs-theme"
              (if attrs "data-bs-theme" = some "dark" then "light" else "dark"),
            storage := .available (fun k =>
              if k = "theme" then
                some (if attrs "data-bs-theme" = some "dark" then "light" else "dark")
              else items k) accepts,
            elements := els, listeners := ls, toolkit := tk },
          .normal) := by
  simp [clickHandler, setItem, getAttribute, h]

theorem clickHandler_refused (attrs : Attrs) (items : Items) (accepts : WritePolicy)
    (els ls : List Element) (tk : Toolkit)
    (h : accepts items "theme"
      (if attrs "data-bs-theme" = some "dark" then "light" else "dark") = false) :
    clickHandler
        { rootAttrs := attrs, storage := .available items accepts, elements := els,
          listeners := ls, toolkit := tk }
      = ({ rootAttrs := setAttribute attrs "data-bs-theme"
              (if attrs "data-bs-theme" = some "dark" then "light" else "dark"),
            storage := .available items accepts,
            elements := els, listeners := ls, toolkit := tk },
          .thrown) := by
  simp [clickHandler, setItem, getAttribute, h]

theorem clickHandler_unavailable (attrs : Attrs) (els ls : List Element) (tk : Toolkit) :
    clickHandler
        { rootAttrs := attrs, storage := .unavailable, elements := els, listeners := ls,
          toolkit := tk }
      = ({ rootAttrs := setAttribute attrs "data-bs-theme"
              (if attrs "data-bs-theme" = some "dark" then "light" else "dark"),
            storage := .unavailable,
            elements := els, listeners := ls, toolkit := tk },
          .thrown) := by
  simp [clickHandler, setItem, getAttribute]

theorem initializer_available (attrs : Attrs) (items : Items) (accepts : WritePolicy)
    (els ls : List Element) (tk : Toolkit) :
    initializer
        { rootAttrs := attrs, storage := .available items accepts, elements := els,
          listeners := ls, toolkit := tk }
      = ({ rootAttrs :=
              match items "theme" with
              | some s => if s = "" then attrs else setAttribute attrs "data-bs-theme" s
              | none => attrs,
            storage := .available items accepts,
            elements := els,
            listeners := ls ++ (getElementById els "themeToggle").toList,
            toolkit := (querySelectorAll els "toast").foldl activateToast tk },
          .normal) := by
  simp only [initializer, getItem, truthy]
  cases items "theme" with
  | none => cases h : getElementById els "themeToggle" <;> simp [h]
  | some s =>
    by_cases hs : s = ""
    · cases h : getElementById els "themeToggle" <;> simp [hs, h]
    · cases h : getElementById els "themeToggle" <;> simp [hs, h]

theorem clickHandler_normal_inv (w : World) (hok : (clickHandler w).2 = .normal) :
    ∃ items accepts, w.storage = .available items accepts ∧
      accepts items "theme"
        (if w.rootAttrs "data-bs-theme" = some "dark" then "light" else "dark") = true := by
  obtain ⟨attrs, st, els, ls, tk⟩ := w
  cases st with
  | unavailable =>
    rw [clickHandler_unavailable] at hok
    cases hok
  | available items accepts =>
    by_cases h : accepts items "theme"
        (if attrs "data-bs-theme" = some "dark" then "light" else "dark") = true
    · exact ⟨items, accepts, rfl, h⟩
    · rw [clickHandler_refused _ _ _ _ _ _ (by simpa using h)] at hok
      cases hok

/-! ## Claims -/

/-- C1 (as stated, refuted): on a page whose store is readable but full, with
root and stored preference both "dark", a click sets the root to "light" while
the stored preference is not "light": the write throws. -/
theorem C1_counterexample :
    rootTheme fullStorePage = some "dark" ∧
    rootTheme (clickHandler fullStorePage).1 = some "light" ∧
    storedTheme (clickHandler fullStorePage).1 ≠ some "light" := by
  simp [fullStorePage, samplePage, refuseAll, clickHandler, setItem, getItem, getAttribute,
    setAttribute, rootTheme, storedTheme]

/-- C1 (amended): whatever the root attribute and the storage content, one
click sets the root's `data-bs-theme` to "light" when it was exactly "dark" and
to "dark" otherwise; when the store accepts the write the click completes and
that same value is stored under `theme`; when the store refuses the write the
exception leaves the handler and the stored `theme` is as before. -/
theorem C1_click_sets_and_persists (w : World) (items : Items) (accepts : WritePolicy) :
    rootTheme (clickHandler { w with storage := .available items accepts }).1
      = some (if w.rootAttrs "data-bs-theme" = some "dark" then "light" else "dark") ∧
    (accepts items "theme"
        (if w.rootAttrs "data-bs-theme" = some "dark" then "light" else "dark") = true →
      (clickHandler { w with storage := .available items accepts }).2 = .normal ∧
      storedTheme (clickHandler { w with storage := .available items accepts }).1
        = some (if w.rootAttrs "data-bs-theme" = some "dark" then "light" else "dark")) ∧
    (accepts items "theme"
        (if w.rootAttrs "data-bs-theme" = some "dark" then "light" else "dark") = false →
      (clickHandler { w with storage := .available items accepts }).2 = .thrown ∧
      storedTheme (clickHandler { w with storage := .available items accepts }).1
        = items "theme") := by
  refine ⟨?_, ?_, ?_⟩
  · rw [rootTheme, clickHandler_root]
    simp [getAttribute, setAttribute]
  · intro h
    rw [clickHandler_accepted _ _ _ _ _ _ h]
    simp [storedTheme, getItem]
  · intro h
    rw [clickHandler_refused _ _ _ _ _ _ h]
    simp [storedTheme, getItem]

/-- Witness for C1: a click on the sample page (root "light", writes accepted)
completes and stores "dark". -/
theorem C1_click_sets_and_persists_witness :
    (clickHandler samplePage).2 = .normal ∧
    storedTheme (clickHandler samplePage).1 = some "dark" :=
  (C1_click_sets_and_persists samplePage
    (fun k => if k = "theme" then some "dark" else none) acceptAll).2.1 rfl

/-- C2 (as stated, refuted): on a page whose root has no `data-bs-theme` and
whose storage has no `theme`, two clicks leave the attribute at "light", not
absent. -/
theorem C2_counterexample :
    ¬ (rootTheme (clickHandler (clickHandler blankWorld).1).1 = rootTheme blankWorld ∧
       storedTheme (clickHandler (clickHandler blankWorld).1).1 = storedTheme blankWorld) := by
  simp [blankWorld, acceptAll, clickHandler, setItem, getItem, getAttribute, setAttribute,
    rootTheme, storedTheme]

/-- C2 (amended): when both clicks complete (each storage write is accepted),
two clicks in succession leave the root attribute and the stored value both at
"dark" if the root attribute was exactly "dark" before the first click, and
both at "light" otherwise; so both are as they were exactly when the root
attribute was "dark" or "light" and the stored value was equal to it. -/
theorem C2_double_click_roundtrip (w : World)
    (hok1 : (clickHandler w).2 = .normal)
    (hok2 : (clickHandler (clickHandler w).1).2 = .normal) :
    rootTheme (clickHandler (clickHandler w).1).1
      = some (if rootTheme w = some "dark" then "dark" else "light") ∧
    storedTheme (clickHandler (clickHandler w).1).1
      = some (if rootTheme w = some "dark" then "dark" else "light") ∧
    ((rootTheme (clickHandler (clickHandler w).1).1 = rootTheme w ∧
        storedTheme (clickHandler (clickHandler w).1).1 = storedTheme w) ↔
      ((rootTheme w = some "dark" ∨ rootTheme w = some "light") ∧
        storedTheme w = rootTheme w)) := by
  obtain ⟨items1, accepts1, hst1, hacc1⟩ := clickHandler_normal_inv _ hok2
  obtain ⟨items0, accepts0, hst0, hacc0⟩ := clickHandler_normal_inv _ hok1
  obtain ⟨attrs, st, els, ls, tk⟩ := w
  simp only at hst0 hacc0
  subst hst0
  rw [clickHandler_accepted _ _ _ _ _ _ hacc0] at hst1 hacc1 ⊢
  simp only [Storage.available.injEq] at hst1
  obtain ⟨hitems, hpol⟩ := hst1
  subst hitems hpol
  rw [clickHandler_accepted _ _ _ _ _ _ hacc1]
  simp only [rootTheme, storedTheme, getAttribute, setAttribute, getItem, if_true,
    Option.join]
  by_cases h : attrs "data-bs-theme" = some "dark"
  · simp [h, eq_comm]
  · by_cases h2 : attrs "data-bs-theme" = some "light"
    · simp [h2, eq_comm]
    · simp only [h, h2, if_false, or_self, false_and, iff_false, not_and, true_and]
      refine ⟨by simp, by simp, ?_⟩
      intro h3
      exact absurd h3.symm h2

/-- Witness for C2: on the sample page with root and stored value both "dark"
and writes accepted, two clicks end with both at "dark" again. -/
theorem C2_double_click_roundtrip_witness :
    rootTheme (clickHandler (clickHandler
        { fullStorePage with
            storage := .available (fun _ => some "dark") acceptAll }).1).1 = some "dark" ∧
      storedTheme (clickHandler (clickHandler
        { fullStorePage with
            storage := .available (fun _ => some "dark") acceptAll }).1).1 = some "dark" :=
  have h := C2_double_click_roundtrip
    { fullStorePage with storage := .available (fun _ => some "dark") acceptAll }
    (by simp [fullStorePage, samplePage, acceptAll, clickHandler, setItem])
    (by simp [fullStorePage, samplePage, acceptAll, clickHandler, setItem])
  ⟨h.1.trans (by simp [fullStorePage, rootTheme, getAttribute]),
   h.2.1.trans (by simp [fullStorePage, rootTheme, getAttribute])⟩

/-- C3 (as stated, refuted): with the empty string stored under `theme` and a
root attribute of "light", the initializer leaves the attribute at "light". -/
theorem C3_counterexample :
    storedTheme { samplePage with storage := .available (fun _ => some "") acceptAll }
      = some "" ∧
    rootTheme (initializer
        { samplePage with storage := .available (fun _ => some "") acceptAll }).1
      ≠ some "" := by
  simp [samplePage, initializer_available, getItem, getAttribute, rootTheme, storedTheme]

/-- C3 (amended): for every non-empty string stored under `theme`, the
initializer completes and the root's `data-bs-theme` equals that string,
whatever the attribute was before. -/
theorem C3_restore_sets_root (w : World) (items : Items) (accepts : WritePolicy) (s : String)
    (hstored : items "theme" = some s) (hne : s ≠ "") :
    (initializer { w with storage := .available items accepts }).2 = .normal ∧
    rootTheme (initializer { w with storage := .available items accepts }).1 = some s := by
  rw [initializer_available]
  simp [hstored, hne, rootTheme, getAttribute, setAttribute]

/-- Witness for C3: the sample page stores "dark" over a root set to "light". -/
theorem C3_restore_sets_root_witness :
    rootTheme samplePage = some "light" ∧
    rootTheme (initializer { samplePage with
      storage := .available (fun k => if k = "theme" then some "dark" else none) refuseAll }).1
      = some "dark" :=
  ⟨by simp [rootTheme, samplePage, getAttribute],
   (C3_restore_sets_root samplePage (fun k => if k = "theme" then some "dark" else none)
      refuseAll "dark" (by simp) (by decide)).2⟩

/-- C4: when storage holds nothing under `theme`, the initializer completes
and leaves every attribute of the root, `data-bs-theme` included, exactly as
it was (same value, or still absent). -/
theorem C4_restore_absent_leaves_root (w : World) (items : Items) (accepts : WritePolicy)
    (habsent : items "theme" = none) :
    (initializer { w with storage := .available items accepts }).2 = .normal ∧
    (initializer { w with storage := .available items accepts }).1.rootAttrs
      = w.rootAttrs := by
  rw [initializer_available]
  simp [habsent]

/-- Witness for C4: the sample page with emptied storage keeps its "light". -/
theorem C4_restore_absent_leaves_root_witness :
    rootTheme (initializer
        { samplePage with storage := .available (fun _ => none) acceptAll }).1
      = some "light" := by
  rw [rootTheme, (C4_restore_absent_leaves_root samplePage (fun _ => none) acceptAll rfl).2]
  simp [getAttribute, samplePage]

/-- C5 (as stated, refuted): the sample page has two elements of class `toast`,
yet with `localStorage` unavailable the initializer constructs no toast
instance and calls no `show()`. -/
theorem C5_counterexample :
    samplePage.elements.countP (fun e => "toast" ∈ e.classes) = 2 ∧
    (initializer { samplePage with storage := .unavailable }).1.toolkit.instances = [] ∧
    (initializer { samplePage with storage := .unavailable }).1.toolkit.shows = [] := by
  refine ⟨by decide, ?_, ?_⟩ <;> simp [initializer, getItem, samplePage]

/-- C5 (amended): on a page whose storage can be read and which has `N`
elements carrying the class `toast`, the initializer adds exactly `N` toast
instances, one per matching element in document order and each with `delay`
4500, and the `show()` calls it makes are one call on each of these `N` new
instances, in the same order, and nothing else. -/
theorem C5_toasts_activated (w : World) (items : Items) (accepts : WritePolicy) (N : Nat)
    (hN : w.elements.countP (fun e => "toast" ∈ e.classes) = N) :
    (initializer { w with storage := .available items accepts }).2 = .normal ∧
    (initializer { w with storage := .available items accepts }).1.toolkit.instances
      = w.toolkit.instances
          ++ (querySelectorAll w.elements "toast").map
              (fun t => { element := t, delay := 4500 }) ∧
    (querySelectorAll w.elements "toast").length = N ∧
    (initializer { w with storage := .available items accepts }).1.toolkit.instances.length
      = w.toolkit.instances.length + N ∧
    (initializer { w with storage := .available items accepts }).1.toolkit.shows
      = w.toolkit.shows ++ List.range' w.toolkit.instances.length N ∧
    (List.range' w.toolkit.instances.length N).Nodup := by
  have hlen : (querySelectorAll w.elements "toast").length = N := by
    rw [← hN, querySelectorAll, List.countP_eq_length_filter]
  rw [initializer_available]
  refine ⟨rfl, foldl_activateToast_instances _ _, hlen, ?_, ?_, List.nodup_range' _ _⟩
  · simp [foldl_activateToast_instances, hlen]
  · simp only [foldl_activateToast_shows, hlen]
    congr 1
    apply List.ext_getElem <;> simp

/-- Witness for C5: the sample page has two toasts; both are constructed with
delay 4500 and shown once each. -/
theorem C5_toasts_activated_witness :
    (initializer samplePage).1.toolkit.instances
      = [{ element := sampleToastA, delay := 4500 }, { element := sampleToastB, delay := 4500 }] ∧
    (initializer samplePage).1.toolkit.shows = [0, 1] := by
  have h := C5_toasts_activated samplePage
    (fun k => if k = "theme" then some "dark" else none) acceptAll 2 (by decide)
  exact ⟨h.2.1, h.2.2.2.2.1⟩

/-- C6 (as stated, refuted): on the sample page with `localStorage`
unavailable the initializer does not complete: the exception propagates, the
existing toggle control gets no listener and neither toast is constructed. -/
theorem C6_counterexample :
    ¬ ((initializer { samplePage with storage := .unavailable }).2 = .normal ∧
        sampleButton ∈ (initializer { samplePage with storage := .unavailable }).1.listeners ∧
        (initializer { samplePage with storage := .unavailable }).1.toolkit.instances.length
          = 2) := by
  simp [initializer, getItem, samplePage]

/-- C6 (amended): when reading `localStorage` throws, the exception propagates
out of the initializer and nothing else happens: the root attributes, the
listeners and the toast toolkit are as before, so no handler is bound and no
toast is activated. -/
theorem C6_storage_failure_propagates (w : World) (hfail : w.storage = .unavailable) :
    (initializer w).2 = .thrown ∧
    (initializer w).1.rootAttrs = w.rootAttrs ∧
    (initializer w).1.listeners = w.listeners ∧
    (initializer w).1.toolkit = w.toolkit := by
  simp [initializer, getItem, hfail]

/-- Witness for C6: the sample page with storage unavailable. -/
theorem C6_storage_failure_propagates_witness :
    (initializer { samplePage with storage := .unavailable }).2 = .thrown ∧
    (initializer { samplePage with storage := .unavailable }).1.listeners = [] ∧
    (initializer { samplePage with storage := .unavailable }).1.toolkit.instances = [] :=
  have h := C6_storage_failure_propagates { samplePage with storage := .unavailable } rfl
  ⟨h.1, h.2.2.1, by rw [h.2.2.2]; rfl⟩

/-- C7: on a page without an element of id `themeToggle` (storage readable),
the initializer completes without an exception and adds no listener; the root
attributes, the storage and the toast toolkit end up exactly as on any page
that has the control and otherwise the same root attributes, storage content,
toast elements and toolkit state, where the one listener is added. -/
theorem C7_missing_toggle_tolerated (w w' : World) (items : Items) (accepts : WritePolicy)
    (btn : Element)
    (hno : getElementById w.elements "themeToggle" = none)
    (hyes : getElementById w'.elements "themeToggle" = some btn)
    (hroot : w'.rootAttrs = w.rootAttrs)
    (htoasts : querySelectorAll w'.elements "toast" = querySelectorAll w.elements "toast")
    (htk : w'.toolkit = w.toolkit) :
    (initializer { w with storage := .available items accepts }).2 = .normal ∧
    (initializer { w with storage := .available items accepts }).1.listeners = w.listeners ∧
    (initializer { w' with storage := .available items accepts }).1.listeners
      = w'.listeners ++ [btn] ∧
    (initializer { w with storage := .available items accepts }).1.rootAttrs
      = (initializer { w' with storage := .available items accepts }).1.rootAttrs ∧
    (initializer { w with storage := .available items accepts }).1.storage
      = (initializer { w' with storage := .available items accepts }).1.storage ∧
    (initializer { w with storage := .available items accepts }).1.toolkit
      = (initializer { w' with storage := .available items accepts }).1.toolkit := by
  rw [initializer_available, initializer_available]
  simp [hno, hyes, hroot, htoasts, htk]

/-- Witness for C7: the sample page with and without its toggle button. -/
theorem C7_missing_toggle_tolerated_witness :
    (initializer samplePageNoButton).2 = .normal ∧
    (initializer samplePageNoButton).1.listeners = [] ∧
    (initializer samplePage).1.listeners = [sampleButton] ∧
    (initializer samplePageNoButton).1.toolkit = (initializer samplePage).1.toolkit :=
  have h := C7_missing_toggle_tolerated samplePageNoButton samplePage
    (fun k => if k = "theme" then some "dark" else none) acceptAll sampleButton
    (by decide) (by decide) rfl (by decide) rfl
  ⟨h.1, h.2.1, h.2.2.1, h.2.2.2.2.2⟩

/-- C8 (as stated, refuted): on the page whose store is readable but full, the
state reached immediately after a click has the root at "light" and the stored
preference still at "dark". -/
theorem C8_counterexample :
    rootTheme (clickHandler fullStorePage).1 = some "light" ∧
    storedTheme (clickHandler fullStorePage).1 = some "dark" ∧
    rootTheme (clickHandler fullStorePage).1 ≠ storedTheme (clickHandler fullStorePage).1 := by
  simp [fullStorePage, samplePage, refuseAll, clickHandler, setItem, getItem, getAttribute,
    setAttribute, rootTheme, storedTheme]

/-- C8 (amended): in every state reached immediately after a click that
completed (its storage write was accepted), whatever the root attribute and the
stored value were before, the root's `data-bs-theme` equals the value stored
under `theme`, and that value is "light" or "dark". -/
theorem C8_click_keeps_sync (w : World) (hok : (clickHandler w).2 = .normal) :
    rootTheme (clickHandler w).1 = storedTheme (clickHandler w).1 ∧
    (rootTheme (clickHandler w).1 = some "light" ∨
      rootTheme (clickHandler w).1 = some "dark") := by
  obtain ⟨items, accepts, hst, hacc⟩ := clickHandler_normal_inv _ hok
  obtain ⟨attrs, st, els, ls, tk⟩ := w
  simp only at hst hacc
  subst hst
  rw [clickHandler_accepted _ _ _ _ _ _ hacc]
  by_cases h : attrs "data-bs-theme" = some "dark" <;>
    simp [rootTheme, storedTheme, getAttribute, setAttribute, getItem, h]

/-- Witness for C8: after a click on the sample page (root "light", stored
"dark", writes accepted) root and stored value are both "dark". -/
theorem C8_click_keeps_sync_witness :
    (clickHandler samplePage).2 = .normal ∧
    rootTheme (clickHandler samplePage).1 = storedTheme (clickHandler samplePage).1 :=
  ⟨by simp [samplePage, acceptAll, clickHandler, setItem],
   (C8_click_keeps_sync samplePage
      (by simp [samplePage, acceptAll, clickHandler, setItem])).1⟩

/-- C9: the initializer leaves `localStorage` exactly as it was, and a click
leaves every key other than `theme` as it was. -/
theorem C9_storage_frame (w : World) (k : String) (hk : k ≠ "theme") :
    (initializer w).1.storage = w.storage ∧
    getItem (clickHandler w).1.storage k = getItem w.storage k := by
  constructor
  · obtain ⟨attrs, st, els, ls, tk⟩ := w
    cases st with
    | unavailable => simp [initializer, getItem]
    | available items accepts => rw [initializer_available]
  · obtain ⟨attrs, st, els, ls, tk⟩ := w
    cases st with
    | unavailable => rw [clickHandler_unavailable]
    | available items accepts =>
      by_cases h : accepts items "theme"
          (if attrs "data-bs-theme" = some "dark" then "light" else "dark") = true
      · rw [clickHandler_accepted _ _ _ _ _ _ h]
        simp [getItem, hk]
      · rw [clickHandler_refused _ _ _ _ _ _ (by simpa using h)]

/-- Witness for C9: on the sample page extended with a key `lang`, the
initializer keeps storage and a click keeps `lang`. -/
theorem C9_storage_frame_witness :
    getItem (clickHandler { samplePage with
        storage := .available (fun k => if k = "lang" then some "es" else none)
          acceptAll }).1.storage
      "lang" = some (some "es") :=
  (C9_storage_frame { samplePage with
      storage := .available (fun k => if k = "lang" then some "es" else none) acceptAll }
    "lang" (by decide)).2.trans (by simp [getItem])

/-- C10 (as stated, refuted): on the page whose store is readable but full, a
click sets the theme to "light", yet the initializer run on a fresh load of
the sample page sharing that storage does not make the root "light": the
stored preference is still "dark". -/
theorem C10_counterexample :
    rootTheme (clickHandler fullStorePage).1 = some "light" ∧
    rootTheme (initializer
        { samplePage with storage := (clickHandler fullStorePage).1.storage }).1
      ≠ some "light" := by
  constructor
  · rw [rootTheme, clickHandler_root]
    simp [fullStorePage, getAttribute, setAttribute]
  · rw [show (clickHandler fullStorePage).1.storage
        = .available (fun k => if k = "theme" then some "dark" else none) refuseAll from by
      simp [fullStorePage, samplePage, refuseAll, clickHandler, setItem]]
    simp [samplePage, initializer_available, rootTheme, getAttribute, setAttribute]

/-- C10 (amended): if a click sets the theme to `v` and completes (its storage
write was accepted), then the initializer run on any fresh page sharing the
resulting storage, whatever its root attributes, completes and makes the
root's `data-bs-theme` equal to `v`. -/
theorem C10_persisted_theme_restored (w fresh : World) (v : String)
    (hv : rootTheme (clickHandler w).1 = some v)
    (hok : (clickHandler w).2 = .normal)
    (hshare : fresh.storage = (clickHandler w).1.storage) :
    (initializer fresh).2 = .normal ∧ rootTheme (initializer fresh).1 = some v := by
  obtain ⟨items, accepts, hst, hacc⟩ := clickHandler_normal_inv _ hok
  obtain ⟨attrs, st, els, ls, tk⟩ := w
  obtain ⟨attrs', st', els', ls', tk'⟩ := fresh
  simp only at hst hacc
  subst hst
  rw [clickHandler_accepted _ _ _ _ _ _ hacc] at hv hshare
  simp only at hshare
  subst hshare
  rw [initializer_available]
  by_cases h : attrs "data-bs-theme" = some "dark"
  · simp [rootTheme, getAttribute, setAttribute, h] at hv ⊢
    exact hv
  · simp [rootTheme, getAttribute, setAttribute, h] at hv ⊢
    exact hv

/-- Witness for C10: a click on the blank page stores "dark", which the sample
page's root (initially "light") takes on at the next load. -/
theorem C10_persisted_theme_restored_witness :
    rootTheme (initializer { samplePage with
        storage := (clickHandler blankWorld).1.storage }).1 = some "dark" :=
  (C10_persisted_theme_restored blankWorld
    { samplePage with storage := (clickHandler blankWorld).1.storage } "dark"
    (by simp [blankWorld, clickHandler, rootTheme, getAttribute, setAttribute, acceptAll,
      setItem])
    (by simp [blankWorld, clickHandler, acceptAll, setItem])
    rfl).2

end MultiSaldo
